import Mathlib

/-!
Shallow embedding of the forwarding pipeline of `mqtt-mqtt-duplicator`
(source broker → destination broker MQTT duplicator).

The embedded code:
* `src/mqtt.ts` (`createDuplicator`): the per-message handler installed with
  `sourceClient.on("message", ...)` — QoS clamping, retain suppression, the
  optional NDJSON audit record (with the UTF-8 / base64 payload-encoding
  choice), the destination publish, and the forwarded/dropped counters with
  the 60-second reporting interval.
* `src/config.ts` (`getQoS`, `getDestMqttConfig`): parsing and validation of
  the `FORWARD_QOS_MAX` QoS ceiling.
* `src/index.ts` (`exitGracefully`): the graceful-shutdown step sequence.

Bytes are modelled as `Nat` with an explicit `< 256` bound where it matters;
JS strings are modelled as lists of Unicode code points (`List Nat`).
-/

namespace Duplicator

/-! ### Data model

`InboundPacket` models the fields of the MQTT packet the handler reads
(`packet.qos`, `packet.retain`, `packet.dup`); the topic and payload arrive
as separate handler arguments, mirroring `(topic, message, packet)`. -/

structure InboundPacket where
  qos : Nat
  retain : Bool
  dup : Bool
  deriving Repr, DecidableEq

/-- The destination-side policy fields of `DestMqttConfig` used by the
message handler (`dest.qosMax`, `dest.forwardRetain`). -/
structure DestPolicy where
  qosMax : Nat
  forwardRetain : Bool
  deriving Repr, DecidableEq

/-- One invocation of `destClient.publish(topic, message, { qos, retain })`. -/
structure PublishCall where
  topic : String
  payload : List Nat
  qos : Nat
  retain : Bool
  deriving Repr, DecidableEq

/-! ### UTF-8 decode (Node `buffer.toString("utf8")`)

Node's `Buffer.prototype.toString("utf8")` performs WHATWG UTF-8 decoding
with replacement: every maximal invalid subpart becomes one U+FFFD, a byte
that fails a continuation check is reprocessed as a fresh lead byte, and a
sequence truncated at end of input yields a single U+FFFD. The decoder
below implements that algorithm on byte lists, producing code points. -/

/-- Lower bound for the first continuation byte after lead `b` (E0 ⇒ A0,
F0 ⇒ 90, otherwise 80), per the WHATWG UTF-8 decoder. -/
def contLo (b : Nat) : Nat :=
  if b = 0xE0 then 0xA0 else if b = 0xF0 then 0x90 else 0x80

/-- Upper bound for the first continuation byte after lead `b` (ED ⇒ 9F,
F4 ⇒ 8F, otherwise BF), per the WHATWG UTF-8 decoder. -/
def contHi (b : Nat) : Nat :=
  if b = 0xED then 0x9F else if b = 0xF4 then 0x8F else 0xBF

/-- WHATWG UTF-8 decode with replacement (U+FFFD = 65533). -/
def utf8DecodeList : List Nat → List Nat
  | [] => []
  | b :: rest =>
    if b ≤ 0x7F then
      b :: utf8DecodeList rest
    else if b ≤ 0xC1 then
      -- stray continuation byte or overlong lead C0/C1
      0xFFFD :: utf8DecodeList rest
    else if b ≤ 0xDF then
      match rest with
      | [] => [0xFFFD]
      | c1 :: rest1 =>
        if 0x80 ≤ c1 ∧ c1 ≤ 0xBF then
          ((b - 0xC0) * 64 + (c1 - 0x80)) :: utf8DecodeList rest1
        else
          0xFFFD :: utf8DecodeList (c1 :: rest1)
    else if b ≤ 0xEF then
      match rest with
      | [] => [0xFFFD]
      | c1 :: rest1 =>
        if contLo b ≤ c1 ∧ c1 ≤ contHi b then
          match rest1 with
          | [] => [0xFFFD]
          | c2 :: rest2 =>
            if 0x80 ≤ c2 ∧ c2 ≤ 0xBF then
              ((b - 0xE0) * 4096 + (c1 - 0x80) * 64 + (c2 - 0x80))
                :: utf8DecodeList rest2
            else
              0xFFFD :: utf8DecodeList (c2 :: rest2)
        else
          0xFFFD :: utf8DecodeList (c1 :: rest1)
    else if b ≤ 0xF4 then
      match rest with
      | [] => [0xFFFD]
      | c1 :: rest1 =>
        if contLo b ≤ c1 ∧ c1 ≤ contHi b then
          match rest1 with
          | [] => [0xFFFD]
          | c2 :: rest2 =>
            if 0x80 ≤ c2 ∧ c2 ≤ 0xBF then
              match rest2 with
              | [] => [0xFFFD]
              | c3 :: rest3 =>
                if 0x80 ≤ c3 ∧ c3 ≤ 0xBF then
                  ((b - 0xF0) * 262144 + (c1 - 0x80) * 4096
                      + (c2 - 0x80) * 64 + (c3 - 0x80))
                    :: utf8DecodeList rest3
                else
                  0xFFFD :: utf8DecodeList (c3 :: rest3)
            else
              0xFFFD :: utf8DecodeList (c2 :: rest2)
        else
          0xFFFD :: utf8DecodeList (c1 :: rest1)
    else
      -- F5..FF: never a valid lead byte
      0xFFFD :: utf8DecodeList rest

/-! ### UTF-8 encode (Node `Buffer.from(string, "utf8")`) -/

/-- UTF-8 encoding of one Unicode scalar value. The decoder above never
produces surrogates, so the surrogate-replacement special case of
`Buffer.from(string, "utf8")` is unreachable on its outputs. -/
def utf8EncodeChar (c : Nat) : List Nat :=
  if c ≤ 0x7F then [c]
  else if c ≤ 0x7FF then [0xC0 + c / 64, 0x80 + c % 64]
  else if c ≤ 0xFFFF then
    [0xE0 + c / 4096, 0x80 + (c / 64) % 64, 0x80 + c % 64]
  else
    [0xF0 + c / 262144, 0x80 + (c / 4096) % 64, 0x80 + (c / 64) % 64,
      0x80 + c % 64]

/-- UTF-8 encoding of a code-point sequence. -/
def utf8Encode (cs : List Nat) : List Nat :=
  (cs.map utf8EncodeChar).flatten

/-! ### Base64 (Node `buffer.toString("base64")`)

Standard alphabet `A–Z a–z 0–9 + /` with `=` padding. The encoder output is
modelled as the list of ASCII codes of the base64 text. -/

/-- ASCII code of the base64 digit for a sextet value (< 64). -/
def b64Char (v : Nat) : Nat :=
  if v < 26 then 65 + v              -- A..Z
  else if v < 52 then 97 + (v - 26)  -- a..z
  else if v < 62 then 48 + (v - 52)  -- 0..9
  else if v = 62 then 43             -- +
  else 47                            -- /

/-- Base64-encode a byte list, with `=` (ASCII 61) padding. -/
def b64Encode : List Nat → List Nat
  | [] => []
  | [a] => [b64Char (a / 4), b64Char (a % 4 * 16), 61, 61]
  | [a, b] =>
    [b64Char (a / 4), b64Char (a % 4 * 16 + b / 16), b64Char (b % 16 * 4), 61]
  | a :: b :: c :: rest =>
    b64Char (a / 4) :: b64Char (a % 4 * 16 + b / 16)
      :: b64Char (b % 16 * 4 + c / 64) :: b64Char (c % 64) :: b64Encode rest

/-- Sextet value of a base64 digit (inverse of `b64Char`). -/
def b64DecodeChar (c : Nat) : Nat :=
  if 65 ≤ c ∧ c ≤ 90 then c - 65
  else if 97 ≤ c ∧ c ≤ 122 then c - 97 + 26
  else if 48 ≤ c ∧ c ≤ 57 then c - 48 + 52
  else if c = 43 then 62
  else if c = 47 then 63
  else 0

/-- Base64-decode an ASCII-code list produced by `b64Encode` (61 = `=`). -/
def b64Decode : List Nat → List Nat
  | c1 :: c2 :: c3 :: c4 :: rest =>
    let s1 := b64DecodeChar c1
    let s2 := b64DecodeChar c2
    if c3 = 61 then [s1 * 4 + s2 / 16]
    else
      let s3 := b64DecodeChar c3
      if c4 = 61 then [s1 * 4 + s2 / 16, s2 % 16 * 16 + s3 / 4]
      else
        (s1 * 4 + s2 / 16) :: (s2 % 16 * 16 + s3 / 4)
          :: (s3 % 4 * 64 + b64DecodeChar c4) :: b64Decode rest
  | _ => []

/-! ### The audit record (NDJSON save-to-file) -/

inductive PayloadEncoding
  | utf8
  | base64
  deriving Repr, DecidableEq

/-- The payload-encoding choice of the message handler (`src/mqtt.ts`):

```
let payload = message.toString("utf8");
if (!Buffer.from(payload, "utf8").equals(message)) {
  payloadEncoding = "base64"; payload = message.toString("base64");
}
```

The result pairs the `payloadEncoding` field with the `payload` string
(as a code-point list: decoded text for utf8, ASCII base64 text otherwise). -/
def auditPayload (message : List Nat) : PayloadEncoding × List Nat :=
  let payload := utf8DecodeList message
  if utf8Encode payload = message then (PayloadEncoding.utf8, payload)
  else (PayloadEncoding.base64, b64Encode message)

/-- The audit record written as one NDJSON line (the `time` field is a wall
clock read and is not modelled). -/
structure AuditRecord where
  topic : String
  incomingQos : Nat
  incomingRetain : Bool
  dup : Bool
  payloadEncoding : PayloadEncoding
  payload : List Nat
  deriving Repr, DecidableEq

/-- Build the audit record from the inbound message (`src/mqtt.ts`,
`const record = { time, topic, incomingQos, incomingRetain, dup,
payloadEncoding, payload }`). -/
def mkAuditRecord (topic : String) (message : List Nat)
    (packet : InboundPacket) : AuditRecord :=
  let enc := auditPayload message
  { topic := topic
    incomingQos := packet.qos
    incomingRetain := packet.retain
    dup := packet.dup
    payloadEncoding := enc.1
    payload := enc.2 }

/-- Decoding an audit payload back to bytes according to its
`payloadEncoding`: re-encode the text as UTF-8, or base64-decode. -/
def decodeAuditPayload : PayloadEncoding → List Nat → List Nat
  | PayloadEncoding.utf8, p => utf8Encode p
  | PayloadEncoding.base64, p => b64Decode p

/-! ### The message handler

`sourceClient.on("message", (topic, message, packet) => ...)` computes the
outbound QoS and retain flag, optionally writes the audit record (the whole
save-to-file block sits in a `try { ... } catch (err) { logger.error(...) }`
and its guard is `saveToFile?.enabled && writer && !writerClosed`), and then
unconditionally calls `destClient.publish(topic, message, { qos, retain })`. -/

/-- Save-to-file runtime state seen by the handler: the config flag, whether
the writer stream exists and is not closed, and whether the synchronous
`writer.write` call throws (the failure the `catch` swallows). -/
structure SaveToFileState where
  enabled : Bool
  writerOpen : Bool
  writeThrows : Bool
  deriving Repr, DecidableEq

/-- Result of one handler invocation: the audit record actually written
(if any) and the publish calls issued. -/
structure HandlerResult where
  auditWritten : Option AuditRecord
  publishes : List PublishCall
  deriving Repr, DecidableEq

/-- The `message` handler of `createDuplicator` (`src/mqtt.ts`). -/
def onMessage (dest : DestPolicy) (save : SaveToFileState) (topic : String)
    (message : List Nat) (packet : InboundPacket) : HandlerResult :=
  let qos := min packet.qos dest.qosMax
  let retain := if dest.forwardRetain then packet.retain else false
  let auditWritten :=
    if save.enabled ∧ save.writerOpen then
      -- try { ... writer.write(...) } catch (err) { logger.error(...) }
      if save.writeThrows then none
      else some (mkAuditRecord topic message packet)
    else none
  { auditWritten := auditWritten
    publishes := [{ topic := topic, payload := message, qos := qos,
                    retain := retain }] }

/-! ### Counters and the reporting interval

`createDuplicator` keeps `let nRecentForwarded = 0; let nRecentDropped = 0`
and a `setInterval` of `logIntervalInSeconds = 60` seconds that logs both
counters and sets them back to 0. The `.then` continuation of each publish
increments `nRecentForwarded` on success; the rejection handler increments
`nRecentDropped` (no retry is issued anywhere). -/

def logIntervalInSeconds : Nat := 60

structure Counters where
  nRecentForwarded : Nat
  nRecentDropped : Nat
  deriving Repr, DecidableEq

inductive PublishOutcome
  | success
  | failure
  deriving Repr, DecidableEq

/-- The publish-completion continuations: fulfilled ⇒ `nRecentForwarded += 1`,
rejected ⇒ `nRecentDropped += 1`. The rejection handler only logs and counts;
it issues no new publish. -/
def applyOutcome (c : Counters) : PublishOutcome → Counters
  | PublishOutcome.success => { c with nRecentForwarded := c.nRecentForwarded + 1 }
  | PublishOutcome.failure => { c with nRecentDropped := c.nRecentDropped + 1 }

/-- The body of the `setInterval` reporter: emit both counters, then reset
both to zero. Returns the emitted pair and the post-tick state. -/
def reportTick (c : Counters) : (Nat × Nat) × Counters :=
  ((c.nRecentForwarded, c.nRecentDropped), { nRecentForwarded := 0, nRecentDropped := 0 })

/-! ### Configuration: `getQoS` (`src/config.ts`)

`getQoS(envVar, defaultStr)` runs `parseInt(process.env[envVar] ?? defaultStr, 10)`
and throws unless the result is exactly 0, 1 or 2.
`getDestMqttConfig` calls `getQoS("FORWARD_QOS_MAX", "1")`. -/

/-- Model of JS `parseInt(str, 10)`: skip leading whitespace, accept an
optional sign, read the longest digit run; `none` models `NaN`. -/
def jsParseInt (s : String) : Option Int :=
  let cs := s.data.dropWhile (fun c => c = ' ' ∨ c = '\t' ∨ c = '\n' ∨ c = '\r')
  let signAndRest : Int × List Char :=
    match cs with
    | '-' :: t => (-1, t)
    | '+' :: t => (1, t)
    | t => (1, t)
  let ds := signAndRest.2.takeWhile Char.isDigit
  if ds.isEmpty then none
  else
    some (signAndRest.1 *
      Int.ofNat (ds.foldl (fun acc c => acc * 10 + (c.toNat - 48)) 0))

/-- `getQoS` of `src/config.ts`: `envVal` is `process.env[envVar]` and
`defaultStr` the hard-coded default; throws (modelled as `Except.error`)
unless the parsed value is 0, 1 or 2. -/
def getQoS (envVal : Option String) (defaultStr : String) :
    Except String Int :=
  match jsParseInt (envVal.getD defaultStr) with
  | some q =>
    if q = 0 ∨ q = 1 ∨ q = 2 then Except.ok q
    else Except.error "If defined, the variable must be 0, 1 or 2."
  | none => Except.error "If defined, the variable must be 0, 1 or 2."

/-- The `FORWARD_QOS_MAX` ceiling of `getDestMqttConfig`:
`getQoS("FORWARD_QOS_MAX", "1")`. -/
def getForwardQosMax (envVal : Option String) : Except String Int :=
  getQoS envVal "1"

/-! ### Graceful shutdown (`exitGracefully` in `src/index.ts`)

`exitGracefully` runs five blocks in source order, each one a
`try { if (handle) { ...step... } } catch (err) { logger.error(...) }`:
set health checks to fail, unsubscribe from the source topics, end the
source client, end the destination client, close the health check server.
A thrown step is logged and the next block still runs, so the attempted
steps do not depend on which steps throw. The audit sink (`writer`) is
ended by `closeWriterIfOpen`, attached to the `close` events both client
`end()` calls emit. -/

inductive ShutdownStep
  | setHealthFail
  | unsubscribeSource
  | closeSourceSession
  | closeDestSession
  | closeAuxServer
  deriving Repr, DecidableEq

/-- Which of `exitGracefully`'s optional handles were passed (all are set
once startup reached the corresponding stage). -/
structure ShutdownHandles where
  hasSetHealthOk : Bool
  hasUnsubscribe : Bool
  hasSourceClient : Bool
  hasDestClient : Bool
  hasCloseAuxServer : Bool
  deriving Repr, DecidableEq

/-- The sequence of steps `exitGracefully` attempts: each block is guarded
by its handle being defined, and each sits in its own `try`/`catch`, so
`throws` (which step raises) never stops the sequence — a raising step is
still attempted, logged, and the next block runs. -/
def exitGracefully (h : ShutdownHandles) (throws : ShutdownStep → Bool) :
    List ShutdownStep :=
  (if h.hasSetHealthOk then
    -- try { setHealthOk(false) } catch { log }; `throws .setHealthFail`
    -- is swallowed by the catch
    [ShutdownStep.setHealthFail] else [])
  ++ (if h.hasUnsubscribe then
    [ShutdownStep.unsubscribeSource] else [])
  ++ (if h.hasSourceClient then
    [ShutdownStep.closeSourceSession] else [])
  ++ (if h.hasDestClient then
    [ShutdownStep.closeDestSession] else [])
  ++ (if h.hasCloseAuxServer then
    [ShutdownStep.closeAuxServer] else [])

/-- `closeWriterIfOpen` (`src/mqtt.ts`): ends the NDJSON audit writer if it
exists and is not yet closed (`writer.end()` sits in a try/catch); it is
attached to the `close` events of both the source and destination clients,
which their `end()` calls during shutdown emit, so the audit sink is closed
while the sessions close and a second invocation is a no-op. `writerOpen`
models `writer && !writerClosed`. -/
def closeWriterIfOpen (writerOpen : Bool) : Bool :=
  if writerOpen then false else writerOpen

/-- Shutdown-time events, including the audit-sink close performed by
`closeWriterIfOpen` (the five `exitGracefully` blocks plus the writer
`end()` fired from the clients' `close` events). -/
inductive ShutdownEvent
  | setHealthFail
  | unsubscribeSource
  | closeSourceSession
  | auditSinkClose
  | closeDestSession
  | closeAuxServer
  deriving Repr, DecidableEq

/-- `await client.end()`: the session closes, emitting the client's `close`
event, on which `closeWriterIfOpen` runs (it is attached to both clients,
`src/mqtt.ts` lines 288–289) and ends the audit writer if it is still open.
Returns the emitted events and the writer state after the handler ran. -/
def endClientEvents (sessionClose : ShutdownEvent) (writerOpen : Bool) :
    List ShutdownEvent × Bool :=
  (sessionClose ::
    (if writerOpen then [ShutdownEvent.auditSinkClose] else []),
   closeWriterIfOpen writerOpen)

/-- Event-level trace of `exitGracefully`: the five guarded try/catch blocks
in source order, with each client `end()` expanded into its session close
plus the `closeWriterIfOpen` reaction to the emitted `close` event. -/
def exitGracefullyEvents (h : ShutdownHandles) (writerOpen : Bool) :
    List ShutdownEvent :=
  let src := if h.hasSourceClient
    then endClientEvents ShutdownEvent.closeSourceSession writerOpen
    else ([], writerOpen)
  let dst := if h.hasDestClient
    then endClientEvents ShutdownEvent.closeDestSession src.2
    else ([], src.2)
  (if h.hasSetHealthOk then [ShutdownEvent.setHealthFail] else [])
  ++ (if h.hasUnsubscribe then [ShutdownEvent.unsubscribeSource] else [])
  ++ src.1 ++ dst.1
  ++ (if h.hasCloseAuxServer then [ShutdownEvent.closeAuxServer] else [])

/-! ### Startup order inside `createDuplicator` (`src/mqtt.ts`)

The statements of `createDuplicator` in source order. The `message` handler
(`sourceClient.on("message", ...)`), which closes over the fully-constructed
`dest` policy and `saveToFile` config passed in as arguments, is installed
before `await sourceClient.subscribe(...)` is issued. -/

inductive SetupStep
  | connectSource
  | connectDest
  | attachEventLogs
  | initWriter
  | startReportTimer
  | installMessageHandler
  | subscribeSource
  | installCloseHandlers
  deriving Repr, DecidableEq

/-- The source-order statement trace of `createDuplicator`. -/
def createDuplicatorSetup : List SetupStep :=
  [SetupStep.connectSource, SetupStep.connectDest, SetupStep.attachEventLogs,
   SetupStep.initWriter, SetupStep.startReportTimer,
   SetupStep.installMessageHandler, SetupStep.subscribeSource,
   SetupStep.installCloseHandlers]

/-! ## Theorems -/

/-- Helper: `b64DecodeChar` inverts `b64Char` on sextet values. -/
theorem b64_char_inv : ∀ v < 64, b64DecodeChar (b64Char v) = v := by decide

/-- Helper: no base64 digit is the padding character `=` (ASCII 61). -/
theorem b64_char_ne_pad : ∀ v < 64, b64Char v ≠ 61 := by decide

/-- Helper: base64 decoding inverts base64 encoding on byte lists. -/
theorem b64_roundtrip (l : List Nat) (h : ∀ x ∈ l, x < 256) :
    b64Decode (b64Encode l) = l := by
  induction l using b64Encode.induct with
  | case1 => rfl
  | case2 a =>
    have ha : a < 256 := h a (by simp)
    show b64Decode [b64Char (a / 4), b64Char (a % 4 * 16), 61, 61] = [a]
    simp only [b64Decode]
    rw [if_pos trivial]
    rw [b64_char_inv (a / 4) (by omega), b64_char_inv (a % 4 * 16) (by omega)]
    simp only [List.cons.injEq, and_true]
    omega
  | case3 a b =>
    have ha : a < 256 := h a (by simp)
    have hb : b < 256 := h b (by simp)
    show b64Decode [b64Char (a / 4), b64Char (a % 4 * 16 + b / 16),
        b64Char (b % 16 * 4), 61] = [a, b]
    simp only [b64Decode]
    rw [if_neg (b64_char_ne_pad (b % 16 * 4) (by omega))]
    rw [if_pos trivial]
    rw [b64_char_inv (a / 4) (by omega),
        b64_char_inv (a % 4 * 16 + b / 16) (by omega),
        b64_char_inv (b % 16 * 4) (by omega)]
    simp only [List.cons.injEq, and_true]
    omega
  | case4 a b c rest ih =>
    have ha : a < 256 := h a (by simp)
    have hb : b < 256 := h b (by simp)
    have hc : c < 256 := h c (by simp)
    have hrest : ∀ x ∈ rest, x < 256 := fun x hx => h x (by simp [hx])
    show b64Decode (b64Char (a / 4) :: b64Char (a % 4 * 16 + b / 16)
        :: b64Char (b % 16 * 4 + c / 64) :: b64Char (c % 64)
        :: b64Encode rest) = a :: b :: c :: rest
    simp only [b64Decode]
    rw [if_neg (b64_char_ne_pad (b % 16 * 4 + c / 64) (by omega))]
    rw [if_neg (b64_char_ne_pad (c % 64) (by omega))]
    rw [b64_char_inv (a / 4) (by omega),
        b64_char_inv (a % 4 * 16 + b / 16) (by omega),
        b64_char_inv (b % 16 * 4 + c / 64) (by omega),
        b64_char_inv (c % 64) (by omega), ih hrest]
    simp only [List.cons.injEq, and_true]
    omega

/-- C3: for every payload byte sequence, decoding the audit record's
`payload` per its `payloadEncoding` and re-encoding to bytes reproduces the
original payload bytes exactly. -/
theorem audit_round_trip (topic : String) (message : List Nat)
    (packet : InboundPacket) (h : ∀ x ∈ message, x < 256) :
    decodeAuditPayload (mkAuditRecord topic message packet).payloadEncoding
      (mkAuditRecord topic message packet).payload = message := by
  by_cases he : utf8Encode (utf8DecodeList message) = message
  · simp [mkAuditRecord, auditPayload, he, decodeAuditPayload]
  · simp [mkAuditRecord, auditPayload, he, decodeAuditPayload,
      b64_roundtrip message h]

/-- Witness for C3 on the invalid-UTF-8 payload `[0xFF, 0xFE, 0x00, 0x01]`. -/
theorem audit_round_trip_witness :
    decodeAuditPayload
      (mkAuditRecord "t" [255, 254, 0, 1]
        { qos := 1, retain := false, dup := false }).payloadEncoding
      (mkAuditRecord "t" [255, 254, 0, 1]
        { qos := 1, retain := false, dup := false }).payload
      = [255, 254, 0, 1] :=
  audit_round_trip "t" [255, 254, 0, 1]
    { qos := 1, retain := false, dup := false } (by decide)

/-- C4: the encoding choice is deterministic — a payload surviving the
strict UTF-8 decode/re-encode round-trip gets `payloadEncoding = utf8` with
the decoded text as payload; any other payload gets
`payloadEncoding = base64` with the base64 text of the original bytes. -/
theorem encoding_choice (message : List Nat) :
    (utf8Encode (utf8DecodeList message) = message →
      auditPayload message = (PayloadEncoding.utf8, utf8DecodeList message))
    ∧ (utf8Encode (utf8DecodeList message) ≠ message →
      auditPayload message = (PayloadEncoding.base64, b64Encode message)) := by
  constructor <;> intro h <;> simp [auditPayload, h]

/-- Witness for C4: the UTF-8 bytes of the JSON text `\x7b"a":1\x7d` yield
`utf8` with the decoded text, and the bytes `[0xFF, 0xFE, 0x00, 0x01]` yield
`base64`. -/
theorem encoding_choice_witness :
    auditPayload [123, 34, 97, 34, 58, 49, 125]
      = (PayloadEncoding.utf8, [123, 34, 97, 34, 58, 49, 125])
    ∧ auditPayload [255, 254, 0, 1]
      = (PayloadEncoding.base64, b64Encode [255, 254, 0, 1]) := by
  constructor
  · have h := (encoding_choice [123, 34, 97, 34, 58, 49, 125]).1 (by decide)
    simpa using h
  · exact (encoding_choice [255, 254, 0, 1]).2 (by decide)

/-- Helper: N consecutive publish failures add exactly N to
`nRecentDropped` and leave `nRecentForwarded` unchanged. -/
theorem counters_fold_failures (n : Nat) (c : Counters) :
    (List.replicate n PublishOutcome.failure).foldl applyOutcome c
      = { c with nRecentDropped := c.nRecentDropped + n } := by
  induction n generalizing c with
  | zero => simp
  | succ k ih =>
    rw [List.replicate_succ, List.foldl_cons, ih]
    simp only [applyOutcome]
    congr 1
    omega

/-- C1: the QoS passed to the destination publish is `min(q, qosMax)`, and
an inbound QoS of 0 always yields outbound QoS 0 regardless of `qosMax`. -/
theorem qos_clamp (dest : DestPolicy) (save : SaveToFileState)
    (topic : String) (message : List Nat) (packet : InboundPacket) :
    ((onMessage dest save topic message packet).publishes.map
        fun c => c.qos) = [min packet.qos dest.qosMax]
    ∧ ((onMessage dest save topic message
          { packet with qos := 0 }).publishes.map fun c => c.qos) = [0] := by
  constructor
  · simp [onMessage]
  · simp [onMessage]

/-- C2: the retain flag passed to the destination publish is
`forwardRetain AND inboundRetain`; with `forwardRetain = false` it is always
`false`, and with `forwardRetain = true` it equals the inbound retain. -/
theorem retain_policy (dest : DestPolicy) (save : SaveToFileState)
    (topic : String) (message : List Nat) (packet : InboundPacket) :
    ((onMessage dest save topic message packet).publishes.map
        fun c => c.retain) = [dest.forwardRetain && packet.retain]
    ∧ ((onMessage { dest with forwardRetain := false } save topic message
          packet).publishes.map fun c => c.retain) = [false]
    ∧ ((onMessage { dest with forwardRetain := true } save topic message
          packet).publishes.map fun c => c.retain) = [packet.retain] := by
  refine ⟨?_, ?_, ?_⟩ <;> cases hfr : dest.forwardRetain <;>
    simp [onMessage, hfr]

/-- C5: the destination publish is invoked exactly once, with the original
topic string and the original payload bytes unmodified; only the QoS and
retain flag are computed from policy. -/
theorem publish_frame (dest : DestPolicy) (save : SaveToFileState)
    (topic : String) (message : List Nat) (packet : InboundPacket) :
    (onMessage dest save topic message packet).publishes
      = [{ topic := topic, payload := message,
           qos := min packet.qos dest.qosMax,
           retain := dest.forwardRetain && packet.retain }] := by
  cases hfr : dest.forwardRetain <;> simp [onMessage, hfr]

/-- C6: a successful publish increments `nRecentForwarded` by one, a failed
publish increments `nRecentDropped` by one, N consecutive failures add
exactly N to `nRecentDropped` and leave `nRecentForwarded` unchanged, and
the 60-second reporting tick emits both counters and resets both to zero. -/
theorem counter_correctness (c : Counters) (n : Nat) :
    applyOutcome c PublishOutcome.success
      = { c with nRecentForwarded := c.nRecentForwarded + 1 }
    ∧ applyOutcome c PublishOutcome.failure
      = { c with nRecentDropped := c.nRecentDropped + 1 }
    ∧ (List.replicate n PublishOutcome.failure).foldl applyOutcome c
      = { c with nRecentDropped := c.nRecentDropped + n }
    ∧ reportTick c = ((c.nRecentForwarded, c.nRecentDropped),
        { nRecentForwarded := 0, nRecentDropped := 0 })
    ∧ logIntervalInSeconds = 60 :=
  ⟨rfl, rfl, counters_fold_failures n c, rfl, rfl⟩

/-- C7: the destination publish step is performed exactly once and is the
same call whatever the audit state is — auditing disabled, writer closed, or
the audit write throwing (the failure is caught) never prevents or alters
the publish. -/
theorem audit_isolation (dest : DestPolicy) (save save' : SaveToFileState)
    (topic : String) (message : List Nat) (packet : InboundPacket) :
    (onMessage dest save topic message packet).publishes
      = (onMessage dest save' topic message packet).publishes
    ∧ (onMessage dest save topic message packet).publishes.length = 1 := by
  exact ⟨rfl, rfl⟩

/-- C8: `getQoS("FORWARD_QOS_MAX", "1")` throws when the environment value
parses to an integer other than 0, 1 or 2, and yields the default 1 when the
variable is absent. -/
theorem forward_qos_max_validation (s : String) (q : Int)
    (hp : jsParseInt s = some q) (h0 : q ≠ 0) (h1 : q ≠ 1) (h2 : q ≠ 2) :
    (∃ e, getForwardQosMax (some s) = Except.error e)
    ∧ getForwardQosMax none = Except.ok 1 := by
  constructor
  · refine ⟨"If defined, the variable must be 0, 1 or 2.", ?_⟩
    simp [getForwardQosMax, getQoS, hp, h0, h1, h2]
  · rfl

/-- Witness for C8 at the concrete value `FORWARD_QOS_MAX=3`. -/
theorem forward_qos_max_validation_witness :
    (∃ e, getForwardQosMax (some "3") = Except.error e)
    ∧ getForwardQosMax none = Except.ok 1 :=
  forward_qos_max_validation "3" 3 (by decide) (by decide) (by decide)
    (by decide)

/-- C9 counterexample: with every handle present and the audit writer open,
the audit sink close fires from the source client's `close` event during
step (3) — it appears in the shutdown event trace strictly before the
destination session close, so the claimed relative order "(4) close the
destination session, then (5) flush/close the audit sink" is false. -/
theorem shutdown_audit_close_before_dest_close :
    exitGracefullyEvents
        { hasSetHealthOk := true, hasUnsubscribe := true,
          hasSourceClient := true, hasDestClient := true,
          hasCloseAuxServer := true } true
      = [ShutdownEvent.setHealthFail, ShutdownEvent.unsubscribeSource,
         ShutdownEvent.closeSourceSession, ShutdownEvent.auditSinkClose,
         ShutdownEvent.closeDestSession, ShutdownEvent.closeAuxServer]
    ∧ ¬ ((exitGracefullyEvents
        { hasSetHealthOk := true, hasUnsubscribe := true,
          hasSourceClient := true, hasDestClient := true,
          hasCloseAuxServer := true } true).indexOf
          ShutdownEvent.closeDestSession
        < (exitGracefullyEvents
        { hasSetHealthOk := true, hasUnsubscribe := true,
          hasSourceClient := true, hasDestClient := true,
          hasCloseAuxServer := true } true).indexOf
          ShutdownEvent.auditSinkClose) := by
  exact ⟨rfl, by decide⟩

/-- C9 (amended): once shutdown is triggered, the process attempts, in this
relative order: (1) mark health as failing, (2) unsubscribe the source topic
filter exactly once, (3) close the source session — whose `close` event
flushes/closes the audit sink exactly once — (4) close the destination
session, (5) close the auxiliary health-check server; each step is attempted
independently (each block is in its own try/catch), so an exception thrown
by one step is logged and does not prevent attempting the subsequent steps. -/
theorem shutdown_ordering (throws throws' : ShutdownStep → Bool) :
    exitGracefully
        { hasSetHealthOk := true, hasUnsubscribe := true,
          hasSourceClient := true, hasDestClient := true,
          hasCloseAuxServer := true } throws
      = [ShutdownStep.setHealthFail, ShutdownStep.unsubscribeSource,
         ShutdownStep.closeSourceSession, ShutdownStep.closeDestSession,
         ShutdownStep.closeAuxServer]
    ∧ exitGracefully
        { hasSetHealthOk := true, hasUnsubscribe := true,
          hasSourceClient := true, hasDestClient := true,
          hasCloseAuxServer := true } throws
      = exitGracefully
        { hasSetHealthOk := true, hasUnsubscribe := true,
          hasSourceClient := true, hasDestClient := true,
          hasCloseAuxServer := true } throws'
    ∧ (exitGracefully
        { hasSetHealthOk := true, hasUnsubscribe := true,
          hasSourceClient := true, hasDestClient := true,
          hasCloseAuxServer := true } throws).count
        ShutdownStep.unsubscribeSource = 1
    ∧ exitGracefullyEvents
        { hasSetHealthOk := true, hasUnsubscribe := true,
          hasSourceClient := true, hasDestClient := true,
          hasCloseAuxServer := true } true
      = [ShutdownEvent.setHealthFail, ShutdownEvent.unsubscribeSource,
         ShutdownEvent.closeSourceSession, ShutdownEvent.auditSinkClose,
         ShutdownEvent.closeDestSession, ShutdownEvent.closeAuxServer]
    ∧ (exitGracefullyEvents
        { hasSetHealthOk := true, hasUnsubscribe := true,
          hasSourceClient := true, hasDestClient := true,
          hasCloseAuxServer := true } true).count
        ShutdownEvent.auditSinkClose = 1 := by
  refine ⟨rfl, rfl, rfl, rfl, rfl⟩

/-- C10: in `createDuplicator`, the `message` handler (closing over the
final QoS/retain policy and audit configuration) is installed strictly
before the subscribe call is issued. -/
theorem handler_installed_before_subscribe :
    SetupStep.installMessageHandler ∈ createDuplicatorSetup
    ∧ SetupStep.subscribeSource ∈ createDuplicatorSetup
    ∧ createDuplicatorSetup.indexOf SetupStep.installMessageHandler
      < createDuplicatorSetup.indexOf SetupStep.subscribeSource := by
  refine ⟨?_, ?_, ?_⟩ <;> decide

end Duplicator
